import Mathlib

/-!
Shallow embedding of the hotel front-desk dashboard (project-aurora).

The TypeScript hooks are thin clients over a remote relational store.  We
model the relevant slice of the store as an explicit `Db` value (lists of
rows) and each data operation as a pure function from the old store to
either an error message (the hook throws / reports before any write) or a
new store together with the list of writes it issued, in issue order.
Thrown `Error`s become `Except.error` with the very message string the
source builds; store-level failures are not modelled (the store always
accepts the write), matching the success path of each hook.
-/

/-- The five reservation lifecycle statuses, as in every hook's
`RESERVATION_STATUSES` constant. -/
def RESERVATION_STATUSES : List String :=
  ["booked", "checked_in", "checked_out", "cancelled", "no_show"]

/-- `isValidReservationStatus` from the hooks: membership in the five
known statuses. -/
def isValidReservationStatus (status : String) : Bool :=
  RESERVATION_STATUSES.contains status

/-- The room statuses, as in `ROOM_STATUSES` of the rooms hook. -/
def ROOM_STATUSES : List String :=
  ["available", "occupied", "cleaning", "maintenance"]

/-- A persisted row of the `reservations` collection.  Statuses are kept
as raw strings: the remote store is untyped and rows may carry values
outside the five known statuses (the parse functions guard for that). -/
structure ReservationRow where
  id : String
  room_id : String
  guest_id : String
  check_in_date : String
  check_out_date : String
  status : String
  base_price : Int
  discount : Int
  final_price : Int
  notes : Option String
deriving DecidableEq, Repr

/-- A persisted row of the `rooms` collection. -/
structure RoomRow where
  id : String
  number : String
  type : String
  base_price : Int
  status : String
  notes : Option String
  is_active : Bool
  archived_at : Option String
deriving DecidableEq, Repr

/-- A persisted row of the `guests` collection. -/
structure GuestRow where
  id : String
  name : String
  document : Option String
  phone : Option String
  email : Option String
  is_active : Bool
  archived_at : Option String
deriving DecidableEq, Repr

/-- The remote data store: the three collections the hooks touch. -/
structure Db where
  reservations : List ReservationRow
  rooms : List RoomRow
  guests : List GuestRow
deriving DecidableEq, Repr

/-- Lexicographic comparison of character lists by code point, the
order JavaScript's `<=` induces on strings (identical to code-unit
order on the ASCII date strings the hooks compare). -/
def jsLeList : List Char → List Char → Bool
  | [], _ => true
  | _ :: _, [] => false
  | a :: as, b :: bs =>
    if a.toNat < b.toNat then true
    else if b.toNat < a.toNat then false
    else jsLeList as bs

/-- JavaScript's string `<=`, as applied by the hooks to ISO
"YYYY-MM-DD" date strings. -/
def jsStringLe (a b : String) : Bool :=
  jsLeList a.data b.data

/-- One write issued against the store, recorded in issue order so that
write-ordering claims can be stated. -/
inductive Write where
  | reservationStatus (id : String) (status : String)
  | roomStatus (id : String) (status : String)
  | insertReservation (row : ReservationRow)
  | guestUpdate (id : String)
  | guestArchive (id : String)
  | roomUpdate (id : String)
  | roomArchive (id : String)
deriving DecidableEq, Repr

/-- Effect of `.from("reservations").update({ status }).eq("id", id)`:
every row whose id matches gets the new status, all else is untouched. -/
def updateReservationStatus (db : Db) (id status : String) : Db :=
  { db with
    reservations := db.reservations.map fun r =>
      if r.id == id then { r with status := status } else r }

/-- Effect of `.from("rooms").update({ status }).eq("id", id)`. -/
def updateRoomStatus (db : Db) (id status : String) : Db :=
  { db with
    rooms := db.rooms.map fun r =>
      if r.id == id then { r with status := status } else r }

/-- Status of the reservation row with the given id, if present. -/
def getReservationStatus (db : Db) (id : String) : Option String :=
  (db.reservations.find? fun r => r.id == id).map fun r => r.status

/-- Status of the room row with the given id, if present. -/
def getRoomStatus (db : Db) (id : String) : Option String :=
  (db.rooms.find? fun r => r.id == id).map fun r => r.status

namespace UseReservations

/-- The list item the reservations hook keeps in client state
(`ReservationListItem` of `useReservations.ts`). -/
structure ReservationListItem where
  id : String
  roomNumber : String
  guestName : String
  checkInDate : String
  checkOutDate : String
  status : String
  finalPrice : Int
deriving DecidableEq, Repr

/-- `NewReservationInput` of `useReservations.ts`: the caller supplies
ids and dates only; no status and no prices. -/
structure NewReservationInput where
  roomId : String
  guestId : String
  checkInDate : String
  checkOutDate : String
deriving DecidableEq, Repr

/-- Validation message thrown by `createReservation` when
`checkOutDate <= checkInDate` (string comparison). -/
def dateOrderMessage : String :=
  "La fecha de salida debe ser posterior a la fecha de ingreso"

/-- Message thrown by `createReservation` when the room row is absent. -/
def roomNotFoundMessage : String :=
  "Habitación no encontrada"

/-- The `.from("rooms").select("base_price").eq("id", roomId).single()`
lookup of `createReservation`. -/
def findRoom (db : Db) (roomId : String) : Option RoomRow :=
  db.rooms.find? fun r => r.id == roomId

/-- `createReservation` of `useReservations.ts`: reject non-chronological
dates up front, fetch the room (failing when it cannot be found), then
insert a row with status forced to "booked", base and final price both
the room's current base_price, and discount 0.  `newId` stands for the
identifier the store generates for the inserted row. -/
def createReservation (db : Db) (newId : String) (input : NewReservationInput) :
    Except String (Db × List Write) :=
  if jsStringLe input.checkOutDate input.checkInDate then
    .error dateOrderMessage
  else
    match findRoom db input.roomId with
    | none => .error roomNotFoundMessage
    | some room =>
      let basePrice := room.base_price
      let row : ReservationRow :=
        { id := newId
          room_id := input.roomId
          guest_id := input.guestId
          check_in_date := input.checkInDate
          check_out_date := input.checkOutDate
          status := "booked"
          base_price := basePrice
          discount := 0
          final_price := basePrice
          notes := none }
      .ok ({ db with reservations := db.reservations ++ [row] },
           [Write.insertReservation row])

/-- State-conflict message of `cancelReservation`, naming the status the
reservation currently has in the loaded list. -/
def cancelConflictMessage (status : String) : String :=
  "No se puede cancelar: la reserva tiene estado \"" ++ status ++ "\""

/-- `cancelReservation` of `useReservations.ts`: the guard inspects only
the hook's loaded `reservations` list; when the id is found there with a
status other than "booked" it throws, otherwise (found booked, or not
found at all) it issues the update to "cancelled" against the store. -/
def cancelReservation (reservations : List ReservationListItem) (db : Db)
    (reservationId : String) : Except String (Db × List Write) :=
  match reservations.find? fun r => r.id == reservationId with
  | some current =>
    if current.status ≠ "booked" then
      .error (cancelConflictMessage current.status)
    else
      .ok (updateReservationStatus db reservationId "cancelled",
           [Write.reservationStatus reservationId "cancelled"])
  | none =>
    .ok (updateReservationStatus db reservationId "cancelled",
         [Write.reservationStatus reservationId "cancelled"])

end UseReservations

namespace UseTodayArrivals

/-- `checkIn` of `useTodayArrivals.ts`: two writes, unconditionally —
first the reservation row is set to "checked_in", then the room row to
"occupied".  No status guard of any kind precedes the writes. -/
def checkIn (db : Db) (reservationId roomId : String) : Db × List Write :=
  let db1 := updateReservationStatus db reservationId "checked_in"
  let db2 := updateRoomStatus db1 roomId "occupied"
  (db2, [Write.reservationStatus reservationId "checked_in",
         Write.roomStatus roomId "occupied"])

/-- `checkOut` of `useTodayArrivals.ts`: unconditionally sets the
reservation to "checked_out" and then the room to "cleaning". -/
def checkOut (db : Db) (reservationId roomId : String) : Db × List Write :=
  let db1 := updateReservationStatus db reservationId "checked_out"
  let db2 := updateRoomStatus db1 roomId "cleaning"
  (db2, [Write.reservationStatus reservationId "checked_out",
         Write.roomStatus roomId "cleaning"])

/-- `markNoShow` of `useTodayArrivals.ts`: unconditionally sets the
reservation to "no_show"; no room write. -/
def markNoShow (db : Db) (reservationId : String) : Db × List Write :=
  (updateReservationStatus db reservationId "no_show",
   [Write.reservationStatus reservationId "no_show"])

end UseTodayArrivals

namespace UseDepartures

/-- `DepartureItem` of `useDepartures.ts`, the client-state list row. -/
structure DepartureItem where
  reservationId : String
  roomId : String
  roomNumber : String
  guestName : String
  checkOutDate : String
  status : String
deriving DecidableEq, Repr

/-- State-conflict message of the guarded `checkOut`, naming the status
the departure currently has in the loaded list. -/
def checkOutConflictMessage (status : String) : String :=
  "No se puede hacer check-out: la reserva tiene estado \"" ++ status ++ "\""

/-- `checkOut` of `useDepartures.ts` (the guarded variant): if the id is
found in the loaded `departures` list with a status other than
"checked_in" it throws; otherwise it sets the reservation to
"checked_out" and then the room to "cleaning". -/
def checkOut (departures : List DepartureItem) (db : Db)
    (reservationId roomId : String) : Except String (Db × List Write) :=
  let proceed : Except String (Db × List Write) :=
    let db1 := updateReservationStatus db reservationId "checked_out"
    let db2 := updateRoomStatus db1 roomId "cleaning"
    .ok (db2, [Write.reservationStatus reservationId "checked_out",
               Write.roomStatus roomId "cleaning"])
  match departures.find? fun d => d.reservationId == reservationId with
  | some current =>
    if current.status ≠ "checked_in" then
      .error (checkOutConflictMessage current.status)
    else
      proceed
  | none => proceed

end UseDepartures

namespace UseGuests

/-- `UpdateGuestPayload` of `useGuests.ts` (`Partial<Omit<Guest,"id">>`):
an outer `none` models an `undefined` (absent) field, which the hook
skips; for the nullable fields the inner option models `null`. -/
structure UpdateGuestPayload where
  name : Option String := none
  document : Option (Option String) := none
  phone : Option (Option String) := none
  email : Option (Option String) := none
deriving DecidableEq, Repr

/-- True when the hook's `updateData` object would stay empty: every
payload field is `undefined`, so no key is copied in. -/
def updateGuestPayloadIsEmpty (p : UpdateGuestPayload) : Bool :=
  p.name.isNone && p.document.isNone && p.phone.isNone && p.email.isNone

/-- Effect at the store of the partial `update(updateData).eq("id", id)`:
supplied keys overwrite the row's fields, absent keys leave them. -/
def mergeGuestUpdate (p : UpdateGuestPayload) (g : GuestRow) : GuestRow :=
  { g with
    name := p.name.getD g.name
    document := p.document.getD g.document
    phone := p.phone.getD g.phone
    email := p.email.getD g.email }

/-- `updateGuest` of `useGuests.ts`: requires a non-empty id, builds
`updateData` from the supplied fields only, returns silently (no write)
when that object is empty, and otherwise issues one partial update. -/
def updateGuest (db : Db) (id : String) (p : UpdateGuestPayload) :
    Except String (Db × List Write) :=
  if id = "" then
    .error "Se requiere el ID del huésped para actualizar"
  else if updateGuestPayloadIsEmpty p then
    .ok (db, [])
  else
    .ok ({ db with
           guests := db.guests.map fun g =>
             if g.id == id then mergeGuestUpdate p g else g },
         [Write.guestUpdate id])

/-- The archive guard's query: reservations of this guest with
`check_out_date >= today` and status in {"booked", "checked_in"}
(`.eq("guest_id", id).gte("check_out_date", today).in("status", ...)`). -/
def guestActiveReservations (db : Db) (id today : String) : List ReservationRow :=
  db.reservations.filter fun r =>
    r.guest_id == id && jsStringLe today r.check_out_date &&
      (r.status == "booked" || r.status == "checked_in")

/-- `archiveGuest` of `useGuests.ts`: requires a non-empty id, refuses
with the distinguished "HAS_ACTIVE_RESERVATIONS" error when the guard
query returns any row, and otherwise sets the guest's `is_active` to
false and `archived_at` to the current timestamp (`now`). -/
def archiveGuest (db : Db) (today now : String) (id : String) :
    Except String (Db × List Write) :=
  if id = "" then
    .error "Guest ID is required for archive"
  else if (guestActiveReservations db id today).length > 0 then
    .error "HAS_ACTIVE_RESERVATIONS"
  else
    .ok ({ db with
           guests := db.guests.map fun g =>
             if g.id == id then
               { g with is_active := false, archived_at := some now }
             else g },
         [Write.guestArchive id])

end UseGuests

namespace UseRooms

/-- `UpdateRoomPayload` of `useRooms.ts`
(`Partial<Omit<Room, "id" | "created_at">>`): outer `none` models an
`undefined` (absent) field; for `notes` the inner option models `null`. -/
structure UpdateRoomPayload where
  number : Option String := none
  type : Option String := none
  base_price : Option Int := none
  status : Option String := none
  notes : Option (Option String) := none
deriving DecidableEq, Repr

/-- True when the hook's `updateData` object would stay empty. -/
def updateRoomPayloadIsEmpty (p : UpdateRoomPayload) : Bool :=
  p.number.isNone && p.type.isNone && p.base_price.isNone &&
    p.status.isNone && p.notes.isNone

/-- Effect at the store of the partial room update: supplied keys
overwrite the row's fields, absent keys leave them. -/
def mergeRoomUpdate (p : UpdateRoomPayload) (r : RoomRow) : RoomRow :=
  { r with
    number := p.number.getD r.number
    type := p.type.getD r.type
    base_price := p.base_price.getD r.base_price
    status := p.status.getD r.status
    notes := p.notes.getD r.notes }

/-- `updateRoom` of `useRooms.ts`: requires a non-empty id, builds
`updateData` from the supplied fields only, returns silently (no write)
when that object is empty, and otherwise issues one partial update. -/
def updateRoom (db : Db) (id : String) (p : UpdateRoomPayload) :
    Except String (Db × List Write) :=
  if id = "" then
    .error "Room ID is required for update"
  else if updateRoomPayloadIsEmpty p then
    .ok (db, [])
  else
    .ok ({ db with
           rooms := db.rooms.map fun r =>
             if r.id == id then mergeRoomUpdate p r else r },
         [Write.roomUpdate id])

/-- Modelled from the spec: the `archiveRoom` operation of the rooms hook
is absent from the provided source files (only its caller, the Rooms
page, appears).  Spec §4.1: "Archive room: sets is_active = false and
archived_at = now; no active-reservation guard is implemented for
rooms."  Accordingly the operation is total: it issues the archive
update unconditionally, with no reservation query before it. -/
def archiveRoom (db : Db) (now : String) (id : String) : Db × List Write :=
  ({ db with
     rooms := db.rooms.map fun r =>
       if r.id == id then
         { r with is_active := false, archived_at := some now }
       else r },
   [Write.roomArchive id])

end UseRooms

/-- A dynamically-typed row as the remote query layer returns it
(`Record<string, unknown>`).  For each field the parse functions read,
`none` models a value that is missing or not of the expected runtime
type (the `typeof` / `??` guards in the source), `some v` a well-typed
value.  `roomNumber` and `guestName` are the joined `rooms.number` and
`guests.name`. -/
structure RawRecord where
  id : Option String := none
  room_id : Option String := none
  guest_id : Option String := none
  check_in_date : Option String := none
  check_out_date : Option String := none
  status : Option String := none
  base_price : Option Int := none
  discount : Option Int := none
  final_price : Option Int := none
  notes : Option String := none
  created_at : Option String := none
  roomNumber : Option String := none
  guestName : Option String := none
deriving DecidableEq, Repr

namespace UseReservations

/-- The parsed `Reservation` record of `useReservations.ts`. -/
structure Reservation where
  id : String
  room_id : String
  guest_id : String
  check_in_date : String
  check_out_date : String
  status : String
  base_price : Int
  discount : Int
  final_price : Int
  notes : Option String
  created_at : Option String
  room_number : Option String
  guest_name : Option String
deriving DecidableEq, Repr

/-- `parseReservation` of `useReservations.ts`: a status that is not a
string or not one of the five known statuses becomes "booked"; string
fields default to "", numeric fields to 0. -/
def parseReservation (raw : RawRecord) : Reservation :=
  let status :=
    match raw.status with
    | some s => if isValidReservationStatus s then s else "booked"
    | none => "booked"
  { id := raw.id.getD ""
    room_id := raw.room_id.getD ""
    guest_id := raw.guest_id.getD ""
    check_in_date := raw.check_in_date.getD ""
    check_out_date := raw.check_out_date.getD ""
    status := status
    base_price := raw.base_price.getD 0
    discount := raw.discount.getD 0
    final_price := raw.final_price.getD 0
    notes := raw.notes
    created_at := raw.created_at
    room_number := raw.roomNumber
    guest_name := raw.guestName }

/-- `RawReservation` of the map-join variant of `useReservations.ts`:
the selected columns, with `status` a raw string straight from the
store and `final_price` possibly null (the source applies `?? 0`). -/
structure RawReservation where
  id : String
  room_id : String
  guest_id : String
  check_in_date : String
  check_out_date : String
  status : String
  final_price : Option Int
deriving DecidableEq, Repr

/-- `RawRoom` of `useReservations.ts`: the selected room columns. -/
structure RawRoom where
  id : String
  number : String
deriving DecidableEq, Repr

/-- `RawGuest` of `useReservations.ts`: the selected guest columns. -/
structure RawGuest where
  id : String
  name : String
deriving DecidableEq, Repr

/-- `buildReservationListItem` of `useReservations.ts`: an unknown
status becomes "booked"; room number and guest name come from the maps
keyed by id, defaulting to "". -/
def buildReservationListItem (reservation : RawReservation)
    (roomMap : List (String × RawRoom)) (guestMap : List (String × RawGuest)) :
    ReservationListItem :=
  let status :=
    if isValidReservationStatus reservation.status then reservation.status
    else "booked"
  let room := roomMap.lookup reservation.room_id
  let guest := guestMap.lookup reservation.guest_id
  { id := reservation.id
    roomNumber := (room.map fun r => r.number).getD ""
    guestName := (guest.map fun g => g.name).getD ""
    checkInDate := reservation.check_in_date
    checkOutDate := reservation.check_out_date
    status := status
    finalPrice := reservation.final_price.getD 0 }

end UseReservations

namespace UseTodayArrivals

/-- `TodayArrival` of `useTodayArrivals.ts`. -/
structure TodayArrival where
  reservationId : String
  roomId : String
  roomNumber : String
  guestName : String
  checkInDate : String
  status : String
deriving DecidableEq, Repr

/-- `parseArrival` of `useTodayArrivals.ts`: a status that is not a
string or not one of the five known statuses becomes "booked". -/
def parseArrival (raw : RawRecord) : TodayArrival :=
  let status :=
    match raw.status with
    | some s => if isValidReservationStatus s then s else "booked"
    | none => "booked"
  { reservationId := raw.id.getD ""
    roomId := raw.room_id.getD ""
    roomNumber := raw.roomNumber.getD ""
    guestName := raw.guestName.getD ""
    checkInDate := raw.check_in_date.getD ""
    status := status }

end UseTodayArrivals

/-! Concrete fixtures used by the witness theorems, mirroring the
scenario of spec §8: room 101 at base price 100, guest Jane Doe, a
booked reservation for 2025-03-01 → 2025-03-03. -/

def room101 : RoomRow :=
  { id := "room-1", number := "101", type := "single", base_price := 100,
    status := "available", notes := none, is_active := true,
    archived_at := none }

def guestJane : GuestRow :=
  { id := "guest-1", name := "Jane Doe", document := none, phone := none,
    email := none, is_active := true, archived_at := none }

def resBooked : ReservationRow :=
  { id := "res-1", room_id := "room-1", guest_id := "guest-1",
    check_in_date := "2025-03-01", check_out_date := "2025-03-03",
    status := "booked", base_price := 100, discount := 0,
    final_price := 100, notes := none }

def db0 : Db :=
  { reservations := [resBooked], rooms := [room101], guests := [guestJane] }

/-- C1: for every call to `createReservation` that succeeds, the inserted
reservation has status "booked" (the input cannot even carry a caller
status), its base_price and final_price both equal the referenced room's
current base_price, and its discount is 0; the call fails when the
referenced room cannot be found. -/
theorem createReservation_books_at_room_price (db : Db) (newId : String)
    (input : UseReservations.NewReservationInput) :
    (∀ db' tr,
        UseReservations.createReservation db newId input = .ok (db', tr) →
        ∃ room, UseReservations.findRoom db input.roomId = some room ∧
          ∃ row, db'.reservations = db.reservations ++ [row] ∧
            tr = [Write.insertReservation row] ∧
            row.status = "booked" ∧ row.base_price = room.base_price ∧
            row.final_price = room.base_price ∧ row.discount = 0) ∧
    (UseReservations.findRoom db input.roomId = none →
      ∃ e, UseReservations.createReservation db newId input = .error e) := by
  constructor
  · intro db' tr h
    unfold UseReservations.createReservation at h
    split at h
    · simp at h
    · split at h
      · simp at h
      · rename_i room hfind
        simp only [Except.ok.injEq, Prod.mk.injEq] at h
        obtain ⟨hdb, htr⟩ := h
        subst hdb
        subst htr
        exact ⟨room, hfind, _, rfl, rfl, rfl, rfl, rfl, rfl⟩
  · intro hnone
    unfold UseReservations.createReservation
    split
    · exact ⟨_, rfl⟩
    · rw [hnone]
      exact ⟨_, rfl⟩

def inputC1 : UseReservations.NewReservationInput :=
  { roomId := "room-1", guestId := "guest-1",
    checkInDate := "2025-03-01", checkOutDate := "2025-03-03" }

def rowC1 : ReservationRow :=
  { id := "res-9", room_id := "room-1", guest_id := "guest-1",
    check_in_date := "2025-03-01", check_out_date := "2025-03-03",
    status := "booked", base_price := 100, discount := 0,
    final_price := 100, notes := none }

/-- C1 witness: on the concrete store the create succeeds and the
theorem yields the booked row at the room's price. -/
theorem createReservation_books_at_room_price_witness :
    ∃ room, UseReservations.findRoom db0 "room-1" = some room ∧
      ∃ row,
        ({ db0 with reservations := db0.reservations ++ [rowC1] } : Db).reservations
            = db0.reservations ++ [row] ∧
        ([Write.insertReservation rowC1] : List Write)
            = [Write.insertReservation row] ∧
        row.status = "booked" ∧ row.base_price = room.base_price ∧
        row.final_price = room.base_price ∧ row.discount = 0 :=
  (createReservation_books_at_room_price db0 "res-9" inputC1).1
    { db0 with reservations := db0.reservations ++ [rowC1] }
    [Write.insertReservation rowC1] rfl

/-- Finding a reservation by id after the status update of that id
yields the old row with the new status. -/
theorem find_reservation_after_update (rs : List ReservationRow) (id st : String) :
    (rs.map fun r => if r.id == id then { r with status := st } else r).find?
        (fun r => r.id == id) =
      (rs.find? fun r => r.id == id).map fun r => { r with status := st } := by
  induction rs with
  | nil => rfl
  | cons r rs ih =>
    by_cases h : (r.id == id) = true
    · have h2 : (((if r.id == id then { r with status := st } else r) :
          ReservationRow).id == id) = true := by
        rw [if_pos h]; exact h
      rw [List.map_cons,
        List.find?_cons_of_pos (p := fun x : ReservationRow => x.id == id) _ h2,
        List.find?_cons_of_pos (p := fun x : ReservationRow => x.id == id) _ h,
        if_pos h]
      rfl
    · rw [List.map_cons, if_neg h,
        List.find?_cons_of_neg (p := fun x : ReservationRow => x.id == id) _ h,
        List.find?_cons_of_neg (p := fun x : ReservationRow => x.id == id) _ h,
        ih]

/-- Finding a room by id after the status update of that id yields the
old row with the new status. -/
theorem find_room_after_update (rs : List RoomRow) (id st : String) :
    (rs.map fun r => if r.id == id then { r with status := st } else r).find?
        (fun r => r.id == id) =
      (rs.find? fun r => r.id == id).map fun r => { r with status := st } := by
  induction rs with
  | nil => rfl
  | cons r rs ih =>
    by_cases h : (r.id == id) = true
    · have h2 : (((if r.id == id then { r with status := st } else r) :
          RoomRow).id == id) = true := by
        rw [if_pos h]; exact h
      rw [List.map_cons,
        List.find?_cons_of_pos (p := fun x : RoomRow => x.id == id) _ h2,
        List.find?_cons_of_pos (p := fun x : RoomRow => x.id == id) _ h,
        if_pos h]
      rfl
    · rw [List.map_cons, if_neg h,
        List.find?_cons_of_neg (p := fun x : RoomRow => x.id == id) _ h,
        List.find?_cons_of_neg (p := fun x : RoomRow => x.id == id) _ h,
        ih]

/-- A reservation-status update rewrites exactly the status read back for
that id, leaving presence intact. -/
theorem getReservationStatus_update (db : Db) (id st : String) :
    getReservationStatus (updateReservationStatus db id st) id =
      (getReservationStatus db id).map fun _ => st := by
  unfold getReservationStatus updateReservationStatus
  simp only [find_reservation_after_update, Option.map_map]
  rfl

/-- A room-status update rewrites exactly the status read back for that
id, leaving presence intact. -/
theorem getRoomStatus_update (db : Db) (id st : String) :
    getRoomStatus (updateRoomStatus db id st) id =
      (getRoomStatus db id).map fun _ => st := by
  unfold getRoomStatus updateRoomStatus
  simp only [find_room_after_update, Option.map_map]
  rfl

/-- C5: whenever the check-out date is lexically at most the check-in
date, `createReservation` raises the validation error before any store
write, so no reservation row is created. -/
theorem createReservation_rejects_nonchronological_dates (db : Db)
    (newId : String) (input : UseReservations.NewReservationInput)
    (h : jsStringLe input.checkOutDate input.checkInDate = true) :
    UseReservations.createReservation db newId input =
        .error UseReservations.dateOrderMessage ∧
    ∀ db' tr, UseReservations.createReservation db newId input ≠ .ok (db', tr) := by
  have hmain : UseReservations.createReservation db newId input =
      .error UseReservations.dateOrderMessage := by
    unfold UseReservations.createReservation
    rw [if_pos h]
  exact ⟨hmain, fun db' tr hok => by rw [hmain] at hok; exact Except.noConfusion hok⟩

/-- C5 witness: the spec §8 scenario, check-in 2025-03-05 and check-out
2025-03-01, is rejected with the validation error. -/
theorem createReservation_rejects_nonchronological_dates_witness :
    (jsStringLe "2025-03-01" "2025-03-05" = true) ∧
    UseReservations.createReservation db0 "res-9"
        { roomId := "room-1", guestId := "guest-1",
          checkInDate := "2025-03-05", checkOutDate := "2025-03-01" } =
      .error UseReservations.dateOrderMessage :=
  ⟨by decide,
   (createReservation_rejects_nonchronological_dates db0 "res-9"
     { roomId := "room-1", guestId := "guest-1",
       checkInDate := "2025-03-05", checkOutDate := "2025-03-01" }
     (by decide)).1⟩

/-- C3: when the reservation id is found in the hook's loaded list,
`cancelReservation` succeeds exactly when that status is "booked"; on any
other status it returns the state-conflict error naming the status and
issues no write, and no success outcome ever changes the rooms or guests
collections (cancel never touches Room.status). -/
theorem cancelReservation_only_from_booked
    (list : List UseReservations.ReservationListItem) (db : Db) (rid : String)
    (item : UseReservations.ReservationListItem)
    (hfound : list.find? (fun r => r.id == rid) = some item) :
    (item.status ≠ "booked" →
      UseReservations.cancelReservation list db rid =
        .error (UseReservations.cancelConflictMessage item.status)) ∧
    (item.status = "booked" →
      UseReservations.cancelReservation list db rid =
        .ok (updateReservationStatus db rid "cancelled",
             [Write.reservationStatus rid "cancelled"])) ∧
    (∀ db' tr, UseReservations.cancelReservation list db rid = .ok (db', tr) →
      item.status = "booked" ∧ db'.rooms = db.rooms ∧ db'.guests = db.guests) := by
  have hmain : UseReservations.cancelReservation list db rid =
      (if item.status ≠ "booked" then
        .error (UseReservations.cancelConflictMessage item.status)
      else
        .ok (updateReservationStatus db rid "cancelled",
             [Write.reservationStatus rid "cancelled"])) := by
    unfold UseReservations.cancelReservation
    rw [hfound]
  refine ⟨fun hne => by rw [hmain, if_pos hne],
          fun hb => by rw [hmain, if_neg (fun hne => hne hb)], ?_⟩
  intro db' tr hok
  rw [hmain] at hok
  by_cases hb : item.status = "booked"
  · rw [if_neg (fun hne => hne hb)] at hok
    simp only [Except.ok.injEq, Prod.mk.injEq] at hok
    obtain ⟨hdb, -⟩ := hok
    subst hdb
    exact ⟨hb, rfl, rfl⟩
  · rw [if_pos hb] at hok
    exact Except.noConfusion hok

def itemCheckedIn : UseReservations.ReservationListItem :=
  { id := "res-1", roomNumber := "101", guestName := "Jane Doe",
    checkInDate := "2025-03-01", checkOutDate := "2025-03-03",
    status := "checked_in", finalPrice := 100 }

/-- C3 witness: cancelling a reservation listed as "checked_in" is
rejected with the state-conflict error naming "checked_in". -/
theorem cancelReservation_only_from_booked_witness :
    UseReservations.cancelReservation [itemCheckedIn] db0 "res-1" =
      .error (UseReservations.cancelConflictMessage "checked_in") :=
  (cancelReservation_only_from_booked [itemCheckedIn] db0 "res-1"
    itemCheckedIn rfl).1 (by decide)

/-- C10: the status guards of `cancelReservation` and of the guarded
check-out inspect only the client's loaded list; for an id absent from
that list the guard is skipped and the status update is issued
unconditionally against the store, whatever the persisted status of the
reservation is (the store `db` is arbitrary here). -/
theorem status_guards_skip_unlisted_ids
    (list : List UseReservations.ReservationListItem)
    (deps : List UseDepartures.DepartureItem) (db : Db) (rid roomId : String)
    (hc : list.find? (fun r => r.id == rid) = none)
    (hd : deps.find? (fun d => d.reservationId == rid) = none) :
    UseReservations.cancelReservation list db rid =
      .ok (updateReservationStatus db rid "cancelled",
           [Write.reservationStatus rid "cancelled"]) ∧
    UseDepartures.checkOut deps db rid roomId =
      .ok (updateRoomStatus (updateReservationStatus db rid "checked_out")
             roomId "cleaning",
           [Write.reservationStatus rid "checked_out",
            Write.roomStatus roomId "cleaning"]) := by
  constructor
  · unfold UseReservations.cancelReservation
    rw [hc]
  · unfold UseDepartures.checkOut
    rw [hd]

def resCheckedOut : ReservationRow :=
  { id := "res-2", room_id := "room-1", guest_id := "guest-1",
    check_in_date := "2025-03-01", check_out_date := "2025-03-03",
    status := "checked_out", notes := none,
    base_price := 100, discount := 0, final_price := 100 }

def db1 : Db :=
  { reservations := [resCheckedOut], rooms := [room101], guests := [guestJane] }

/-- C10 witness: with an empty loaded list, cancel and guarded check-out
are issued against a reservation whose persisted status is
"checked_out", and the store ends up cancelled / checked_out
respectively — no guard intervened. -/
theorem status_guards_skip_unlisted_ids_witness :
    (getReservationStatus db1 "res-2" = some "checked_out") ∧
    UseReservations.cancelReservation [] db1 "res-2" =
      .ok (updateReservationStatus db1 "res-2" "cancelled",
           [Write.reservationStatus "res-2" "cancelled"]) ∧
    UseDepartures.checkOut [] db1 "res-2" "room-1" =
      .ok (updateRoomStatus (updateReservationStatus db1 "res-2" "checked_out")
             "room-1" "cleaning",
           [Write.reservationStatus "res-2" "checked_out",
            Write.roomStatus "room-1" "cleaning"]) :=
  ⟨rfl, status_guards_skip_unlisted_ids [] [] db1 "res-2" "room-1" rfl rfl⟩

/-- C4: a successful check-in writes Reservation.status = "checked_in"
and Room.status = "occupied" together (room from any prior status), and
a successful check-out writes "checked_out" and "cleaning" together; in
both, the reservation write is issued first and the room write second,
as the recorded write order shows. -/
theorem checkin_checkout_write_coupling (db : Db) (rid roomId s t : String)
    (hres : getReservationStatus db rid = some s)
    (hroom : getRoomStatus db roomId = some t) :
    ((UseTodayArrivals.checkIn db rid roomId).2 =
      [Write.reservationStatus rid "checked_in",
       Write.roomStatus roomId "occupied"]) ∧
    getReservationStatus (UseTodayArrivals.checkIn db rid roomId).1 rid =
      some "checked_in" ∧
    getRoomStatus (UseTodayArrivals.checkIn db rid roomId).1 roomId =
      some "occupied" ∧
    ((UseTodayArrivals.checkOut db rid roomId).2 =
      [Write.reservationStatus rid "checked_out",
       Write.roomStatus roomId "cleaning"]) ∧
    getReservationStatus (UseTodayArrivals.checkOut db rid roomId).1 rid =
      some "checked_out" ∧
    getRoomStatus (UseTodayArrivals.checkOut db rid roomId).1 roomId =
      some "cleaning" ∧
    (∀ (deps : List UseDepartures.DepartureItem) dep,
      deps.find? (fun d => d.reservationId == rid) = some dep →
      dep.status = "checked_in" →
      UseDepartures.checkOut deps db rid roomId =
        .ok (updateRoomStatus (updateReservationStatus db rid "checked_out")
               roomId "cleaning",
             [Write.reservationStatus rid "checked_out",
              Write.roomStatus roomId "cleaning"])) := by
  have hresIn : getReservationStatus (UseTodayArrivals.checkIn db rid roomId).1 rid
      = getReservationStatus (updateReservationStatus db rid "checked_in") rid := rfl
  have hroomIn : getRoomStatus (UseTodayArrivals.checkIn db rid roomId).1 roomId
      = getRoomStatus
          (updateRoomStatus (updateReservationStatus db rid "checked_in")
            roomId "occupied") roomId := rfl
  have hresOut : getReservationStatus (UseTodayArrivals.checkOut db rid roomId).1 rid
      = getReservationStatus (updateReservationStatus db rid "checked_out") rid := rfl
  have hroomOut : getRoomStatus (UseTodayArrivals.checkOut db rid roomId).1 roomId
      = getRoomStatus
          (updateRoomStatus (updateReservationStatus db rid "checked_out")
            roomId "cleaning") roomId := rfl
  have hroomsKeep : ∀ st : String,
      getRoomStatus (updateReservationStatus db rid st) roomId =
        getRoomStatus db roomId := fun _ => rfl
  refine ⟨rfl, ?_, ?_, rfl, ?_, ?_, ?_⟩
  · rw [hresIn, getReservationStatus_update, hres]; rfl
  · rw [hroomIn, getRoomStatus_update, hroomsKeep, hroom]; rfl
  · rw [hresOut, getReservationStatus_update, hres]; rfl
  · rw [hroomOut, getRoomStatus_update, hroomsKeep, hroom]; rfl
  · intro deps dep hfound hb
    unfold UseDepartures.checkOut
    simp only [hfound]
    rw [if_neg (fun hne => hne hb)]

def depCheckedIn : UseDepartures.DepartureItem :=
  { reservationId := "res-1", roomId := "room-1", roomNumber := "101",
    guestName := "Jane Doe", checkOutDate := "2025-03-03",
    status := "checked_in" }

/-- C4 witness: on the concrete store, check-in leaves the reservation
checked_in and room 101 occupied; the guarded check-out on a departure
listed as checked_in issues the paired writes in order. -/
theorem checkin_checkout_write_coupling_witness :
    getReservationStatus (UseTodayArrivals.checkIn db0 "res-1" "room-1").1 "res-1" =
      some "checked_in" ∧
    getRoomStatus (UseTodayArrivals.checkIn db0 "res-1" "room-1").1 "room-1" =
      some "occupied" ∧
    UseDepartures.checkOut [depCheckedIn] db0 "res-1" "room-1" =
      .ok (updateRoomStatus (updateReservationStatus db0 "res-1" "checked_out")
             "room-1" "cleaning",
           [Write.reservationStatus "res-1" "checked_out",
            Write.roomStatus "room-1" "cleaning"]) := by
  have h := checkin_checkout_write_coupling db0 "res-1" "room-1"
    "booked" "available" rfl rfl
  exact ⟨h.2.1, h.2.2.1, h.2.2.2.2.2.2 [depCheckedIn] depCheckedIn rfl rfl⟩

/-- C2 counterexample: the claim that every transition attempt from a
status outside the allowed table is rejected with a state-conflict
error, leaving the reservation unchanged, is false.  `checkIn` has no
guard at all (its result type carries no error case): invoked on a
reservation whose persisted status is the terminal "checked_out", it
issues the write and the row ends up "checked_in". -/
theorem reservation_transition_table_counterexample :
    getReservationStatus db1 "res-2" = some "checked_out" ∧
    getReservationStatus (UseTodayArrivals.checkIn db1 "res-2" "room-1").1
        "res-2" = some "checked_in" ∧
    (UseTodayArrivals.checkIn db1 "res-2" "room-1").2 =
      [Write.reservationStatus "res-2" "checked_in",
       Write.roomStatus "room-1" "occupied"] :=
  ⟨rfl, rfl, rfl⟩

/-- C2 amended: only `cancelReservation` (requiring "booked") and the
guarded departures `checkOut` (requiring "checked_in") reject other
statuses, with a state-conflict error naming the attempted-from status,
and only when the reservation appears in the loaded list; `checkIn`,
the arrivals `checkOut` and `markNoShow` write their target status
unconditionally from any current status. -/
theorem reservation_transitions_amended (db : Db)
    (list : List UseReservations.ReservationListItem)
    (deps : List UseDepartures.DepartureItem) (rid roomId : String)
    (item : UseReservations.ReservationListItem)
    (dep : UseDepartures.DepartureItem) (s : String) :
    (list.find? (fun r => r.id == rid) = some item → item.status ≠ "booked" →
      UseReservations.cancelReservation list db rid =
        .error (UseReservations.cancelConflictMessage item.status)) ∧
    (deps.find? (fun d => d.reservationId == rid) = some dep →
      dep.status ≠ "checked_in" →
      UseDepartures.checkOut deps db rid roomId =
        .error (UseDepartures.checkOutConflictMessage dep.status)) ∧
    (getReservationStatus db rid = some s →
      getReservationStatus (UseTodayArrivals.checkIn db rid roomId).1 rid =
        some "checked_in" ∧
      getReservationStatus (UseTodayArrivals.checkOut db rid roomId).1 rid =
        some "checked_out" ∧
      getReservationStatus (UseTodayArrivals.markNoShow db rid).1 rid =
        some "no_show") := by
  refine ⟨?_, ?_, ?_⟩
  · intro hfound hne
    unfold UseReservations.cancelReservation
    simp only [hfound]
    rw [if_pos hne]
  · intro hfound hne
    unfold UseDepartures.checkOut
    simp only [hfound]
    rw [if_pos hne]
  · intro hres
    have h1 : getReservationStatus (UseTodayArrivals.checkIn db rid roomId).1 rid
        = getReservationStatus (updateReservationStatus db rid "checked_in") rid := rfl
    have h2 : getReservationStatus (UseTodayArrivals.checkOut db rid roomId).1 rid
        = getReservationStatus (updateReservationStatus db rid "checked_out") rid := rfl
    have h3 : getReservationStatus (UseTodayArrivals.markNoShow db rid).1 rid
        = getReservationStatus (updateReservationStatus db rid "no_show") rid := rfl
    refine ⟨?_, ?_, ?_⟩
    · rw [h1, getReservationStatus_update, hres]; rfl
    · rw [h2, getReservationStatus_update, hres]; rfl
    · rw [h3, getReservationStatus_update, hres]; rfl

def depBooked : UseDepartures.DepartureItem :=
  { reservationId := "res-1", roomId := "room-1", roomNumber := "101",
    guestName := "Jane Doe", checkOutDate := "2025-03-03",
    status := "booked" }

/-- C2 amended witness: cancel on a listed "checked_in" reservation and
guarded check-out on a listed "booked" departure are rejected with the
status-naming errors, while the unguarded operations write through on
the booked reservation of the concrete store. -/
theorem reservation_transitions_amended_witness :
    UseReservations.cancelReservation [itemCheckedIn] db0 "res-1" =
      .error (UseReservations.cancelConflictMessage "checked_in") ∧
    UseDepartures.checkOut [depBooked] db0 "res-1" "room-1" =
      .error (UseDepartures.checkOutConflictMessage "booked") ∧
    getReservationStatus (UseTodayArrivals.checkIn db0 "res-1" "room-1").1
        "res-1" = some "checked_in" ∧
    getReservationStatus (UseTodayArrivals.checkOut db0 "res-1" "room-1").1
        "res-1" = some "checked_out" ∧
    getReservationStatus (UseTodayArrivals.markNoShow db0 "res-1").1 "res-1" =
      some "no_show" := by
  have h := reservation_transitions_amended db0 [itemCheckedIn] [depBooked]
    "res-1" "room-1" itemCheckedIn depBooked "booked"
  exact ⟨h.1 rfl (by decide), h.2.1 rfl (by decide), (h.2.2 rfl).1,
    (h.2.2 rfl).2.1, (h.2.2 rfl).2.2⟩

/-- C6: `archiveGuest` first runs the guard query — reservations of the
guest with check_out_date ≥ today and status in {booked, checked_in} —
and refuses with the distinguished "has active reservations" error when
any row matches, leaving every record untouched; otherwise it archives
the guest, setting is_active = false and archived_at = now, touching
nothing else. -/
theorem archiveGuest_guards_active_reservations (db : Db)
    (today now id : String) (hid : id ≠ "") :
    (∀ r, r ∈ UseGuests.guestActiveReservations db id today ↔
      (r ∈ db.reservations ∧ r.guest_id = id ∧
       jsStringLe today r.check_out_date = true ∧
       (r.status = "booked" ∨ r.status = "checked_in"))) ∧
    ((UseGuests.guestActiveReservations db id today).length > 0 →
      UseGuests.archiveGuest db today now id = .error "HAS_ACTIVE_RESERVATIONS") ∧
    ((UseGuests.guestActiveReservations db id today).length = 0 →
      ∃ db', UseGuests.archiveGuest db today now id =
          .ok (db', [Write.guestArchive id]) ∧
        db'.rooms = db.rooms ∧ db'.reservations = db.reservations ∧
        (∀ g ∈ db.guests, g.id = id →
          { g with is_active := false, archived_at := some now } ∈ db'.guests) ∧
        (∀ g ∈ db.guests, g.id ≠ id → g ∈ db'.guests)) := by
  refine ⟨?_, ?_, ?_⟩
  · intro r
    unfold UseGuests.guestActiveReservations
    rw [List.mem_filter]
    simp [and_assoc]
  · intro hlen
    unfold UseGuests.archiveGuest
    rw [if_neg hid, if_pos hlen]
  · intro hlen
    refine ⟨{ db with
        guests := db.guests.map fun g =>
          if g.id == id then { g with is_active := false, archived_at := some now }
          else g }, ?_, rfl, rfl, ?_, ?_⟩
    · unfold UseGuests.archiveGuest
      rw [if_neg hid, if_neg (by omega)]
    · intro g hg hgid
      have hf : (if g.id == id then
            ({ g with is_active := false, archived_at := some now } : GuestRow)
          else g) =
          { g with is_active := false, archived_at := some now } := by
        rw [if_pos (by simp [hgid])]
      exact hf ▸ List.mem_map_of_mem _ hg
    · intro g hg hgid
      have hf : (if g.id == id then
            ({ g with is_active := false, archived_at := some now } : GuestRow)
          else g) = g := by
        rw [if_neg (by simp [hgid])]
      exact hf ▸ List.mem_map_of_mem _ hg

/-- C6 witness: archiving Jane while her booked reservation is still
outstanding (check-out 2025-03-03 ≥ today 2025-03-01) is refused with
the distinguished error; on the store whose only reservation is already
checked out, the archive succeeds and flags the guest inactive. -/
theorem archiveGuest_guards_active_reservations_witness :
    UseGuests.archiveGuest db0 "2025-03-01" "2025-03-10T00:00:00Z" "guest-1" =
      .error "HAS_ACTIVE_RESERVATIONS" ∧
    ∃ db', UseGuests.archiveGuest db1 "2025-03-04" "2025-03-10T00:00:00Z"
        "guest-1" = .ok (db', [Write.guestArchive "guest-1"]) ∧
      db'.rooms = db1.rooms ∧ db'.reservations = db1.reservations ∧
      (∀ g ∈ db1.guests, g.id = "guest-1" →
        { g with is_active := false,
                 archived_at := some "2025-03-10T00:00:00Z" } ∈ db'.guests) ∧
      (∀ g ∈ db1.guests, g.id ≠ "guest-1" → g ∈ db'.guests) := by
  have ha := archiveGuest_guards_active_reservations db0 "2025-03-01"
    "2025-03-10T00:00:00Z" "guest-1" (by decide)
  have hb := archiveGuest_guards_active_reservations db1 "2025-03-04"
    "2025-03-10T00:00:00Z" "guest-1" (by decide)
  exact ⟨ha.2.1 (by decide), hb.2.2 (by decide)⟩

/-- C7: room and guest partial updates write only the supplied fields —
absent payload fields never change the row, other rows and the other
collections are untouched — and an update with an empty field set
performs no store write at all and returns success. -/
theorem partial_updates_write_only_supplied_fields (db : Db) (id : String)
    (p : UseRooms.UpdateRoomPayload) (q : UseGuests.UpdateGuestPayload)
    (hid : id ≠ "") :
    (UseRooms.updateRoomPayloadIsEmpty p = true →
      UseRooms.updateRoom db id p = .ok (db, [])) ∧
    (UseGuests.updateGuestPayloadIsEmpty q = true →
      UseGuests.updateGuest db id q = .ok (db, [])) ∧
    (∀ r : RoomRow,
      (UseRooms.mergeRoomUpdate p r).id = r.id ∧
      (UseRooms.mergeRoomUpdate p r).is_active = r.is_active ∧
      (UseRooms.mergeRoomUpdate p r).archived_at = r.archived_at ∧
      (p.number = none → (UseRooms.mergeRoomUpdate p r).number = r.number) ∧
      (p.type = none → (UseRooms.mergeRoomUpdate p r).type = r.type) ∧
      (p.base_price = none →
        (UseRooms.mergeRoomUpdate p r).base_price = r.base_price) ∧
      (p.status = none → (UseRooms.mergeRoomUpdate p r).status = r.status) ∧
      (p.notes = none → (UseRooms.mergeRoomUpdate p r).notes = r.notes)) ∧
    (∀ g : GuestRow,
      (UseGuests.mergeGuestUpdate q g).id = g.id ∧
      (UseGuests.mergeGuestUpdate q g).is_active = g.is_active ∧
      (UseGuests.mergeGuestUpdate q g).archived_at = g.archived_at ∧
      (q.name = none → (UseGuests.mergeGuestUpdate q g).name = g.name) ∧
      (q.document = none →
        (UseGuests.mergeGuestUpdate q g).document = g.document) ∧
      (q.phone = none → (UseGuests.mergeGuestUpdate q g).phone = g.phone) ∧
      (q.email = none → (UseGuests.mergeGuestUpdate q g).email = g.email)) ∧
    (UseRooms.updateRoomPayloadIsEmpty p = false →
      ∃ db', UseRooms.updateRoom db id p = .ok (db', [Write.roomUpdate id]) ∧
        db'.reservations = db.reservations ∧ db'.guests = db.guests ∧
        (∀ r ∈ db.rooms, r.id ≠ id → r ∈ db'.rooms) ∧
        (∀ r ∈ db.rooms, r.id = id → UseRooms.mergeRoomUpdate p r ∈ db'.rooms)) ∧
    (UseGuests.updateGuestPayloadIsEmpty q = false →
      ∃ db', UseGuests.updateGuest db id q = .ok (db', [Write.guestUpdate id]) ∧
        db'.reservations = db.reservations ∧ db'.rooms = db.rooms ∧
        (∀ g ∈ db.guests, g.id ≠ id → g ∈ db'.guests) ∧
        (∀ g ∈ db.guests, g.id = id →
          UseGuests.mergeGuestUpdate q g ∈ db'.guests)) := by
  refine ⟨?_, ?_, ?_, ?_, ?_, ?_⟩
  · intro hempty
    unfold UseRooms.updateRoom
    rw [if_neg hid, if_pos hempty]
  · intro hempty
    unfold UseGuests.updateGuest
    rw [if_neg hid, if_pos hempty]
  · intro r
    refine ⟨rfl, rfl, rfl, ?_, ?_, ?_, ?_, ?_⟩ <;>
      (intro h; simp [UseRooms.mergeRoomUpdate, h])
  · intro g
    refine ⟨rfl, rfl, rfl, ?_, ?_, ?_, ?_⟩ <;>
      (intro h; simp [UseGuests.mergeGuestUpdate, h])
  · intro hne
    refine ⟨{ db with
        rooms := db.rooms.map fun r =>
          if r.id == id then UseRooms.mergeRoomUpdate p r else r }, ?_,
      rfl, rfl, ?_, ?_⟩
    · unfold UseRooms.updateRoom
      rw [if_neg hid, if_neg (by simp [hne])]
    · intro r hr hrid
      have hf : (if r.id == id then UseRooms.mergeRoomUpdate p r else r) = r := by
        rw [if_neg (by simp [hrid])]
      exact hf ▸ List.mem_map_of_mem _ hr
    · intro r hr hrid
      have hf : (if r.id == id then UseRooms.mergeRoomUpdate p r else r) =
          UseRooms.mergeRoomUpdate p r := by
        rw [if_pos (by simp [hrid])]
      exact hf ▸ List.mem_map_of_mem _ hr
  · intro hne
    refine ⟨{ db with
        guests := db.guests.map fun g =>
          if g.id == id then UseGuests.mergeGuestUpdate q g else g }, ?_,
      rfl, rfl, ?_, ?_⟩
    · unfold UseGuests.updateGuest
      rw [if_neg hid, if_neg (by simp [hne])]
    · intro g hg hgid
      have hf : (if g.id == id then UseGuests.mergeGuestUpdate q g else g) = g := by
        rw [if_neg (by simp [hgid])]
      exact hf ▸ List.mem_map_of_mem _ hg
    · intro g hg hgid
      have hf : (if g.id == id then UseGuests.mergeGuestUpdate q g else g) =
          UseGuests.mergeGuestUpdate q g := by
        rw [if_pos (by simp [hgid])]
      exact hf ▸ List.mem_map_of_mem _ hg

def roomMaintenancePayload : UseRooms.UpdateRoomPayload :=
  { status := some "maintenance" }

/-- C7 witness: the empty guest update on the concrete store is a silent
success with no write; the room update supplying only `status` leaves
the room's number unchanged and rewrites exactly the matching room. -/
theorem partial_updates_write_only_supplied_fields_witness :
    UseGuests.updateGuest db0 "room-1" {} = .ok (db0, []) ∧
    (UseRooms.mergeRoomUpdate roomMaintenancePayload room101).number =
      room101.number ∧
    ∃ db', UseRooms.updateRoom db0 "room-1" roomMaintenancePayload =
        .ok (db', [Write.roomUpdate "room-1"]) ∧
      db'.reservations = db0.reservations ∧ db'.guests = db0.guests ∧
      (∀ r ∈ db0.rooms, r.id ≠ "room-1" → r ∈ db'.rooms) ∧
      (∀ r ∈ db0.rooms, r.id = "room-1" →
        UseRooms.mergeRoomUpdate roomMaintenancePayload r ∈ db'.rooms) := by
  have h := partial_updates_write_only_supplied_fields db0 "room-1"
    roomMaintenancePayload {} (by decide)
  exact ⟨h.2.1 rfl, (h.2.2.1 room101).2.2.2.1 rfl, h.2.2.2.2.1 (by decide)⟩

/-- C8: archiving a room sets is_active = false and archived_at = now,
unconditionally — there is no active-reservation guard: the operation is
total (no error case) and its effect on the rooms is the same whatever
the reservations collection holds. -/
theorem archiveRoom_is_unconditional (db : Db) (now id : String)
    (rs : List ReservationRow) :
    ((UseRooms.archiveRoom db now id).2 = [Write.roomArchive id]) ∧
    ((UseRooms.archiveRoom db now id).1.reservations = db.reservations) ∧
    ((UseRooms.archiveRoom db now id).1.guests = db.guests) ∧
    (∀ r ∈ db.rooms, r.id = id →
      { r with is_active := false, archived_at := some now } ∈
        (UseRooms.archiveRoom db now id).1.rooms) ∧
    (∀ r ∈ db.rooms, r.id ≠ id →
      r ∈ (UseRooms.archiveRoom db now id).1.rooms) ∧
    ((UseRooms.archiveRoom { db with reservations := rs } now id).1.rooms =
      (UseRooms.archiveRoom db now id).1.rooms) := by
  refine ⟨rfl, rfl, rfl, ?_, ?_, rfl⟩
  · intro r hr hrid
    have hf : (if r.id == id then
          ({ r with is_active := false, archived_at := some now } : RoomRow)
        else r) =
        { r with is_active := false, archived_at := some now } := by
      rw [if_pos (by simp [hrid])]
    exact hf ▸ List.mem_map_of_mem _ hr
  · intro r hr hrid
    have hf : (if r.id == id then
          ({ r with is_active := false, archived_at := some now } : RoomRow)
        else r) = r := by
      rw [if_neg (by simp [hrid])]
    exact hf ▸ List.mem_map_of_mem _ hr

/-- C8 witness: archiving room 101 on the concrete store — whose guest
holds an outstanding booked reservation for that room — still goes
through and flags the room inactive with the archive timestamp. -/
theorem archiveRoom_is_unconditional_witness :
    ({ room101 with
        is_active := false
        archived_at := some "2025-03-10T00:00:00Z" } : RoomRow) ∈
      (UseRooms.archiveRoom db0 "2025-03-10T00:00:00Z" "room-1").1.rooms ∧
    (UseRooms.archiveRoom db0 "2025-03-10T00:00:00Z" "room-1").2 =
      [Write.roomArchive "room-1"] := by
  have h := archiveRoom_is_unconditional db0 "2025-03-10T00:00:00Z" "room-1" []
  exact ⟨h.2.2.2.1 room101 (by decide) rfl, h.1⟩

/-- C9: every listing/parsing function maps a fetched reservation row
whose status is outside the five known statuses to a record with status
"booked" — none fails or keeps the unknown value. -/
theorem unknown_status_parses_as_booked (raw : RawRecord) (s : String)
    (resv : UseReservations.RawReservation)
    (roomMap : List (String × UseReservations.RawRoom))
    (guestMap : List (String × UseReservations.RawGuest))
    (hs : isValidReservationStatus s = false)
    (hraw : raw.status = some s) (hresv : resv.status = s) :
    (UseReservations.parseReservation raw).status = "booked" ∧
    (UseReservations.buildReservationListItem resv roomMap guestMap).status =
      "booked" ∧
    (UseTodayArrivals.parseArrival raw).status = "booked" := by
  refine ⟨?_, ?_, ?_⟩
  · simp [UseReservations.parseReservation, hraw, hs]
  · simp [UseReservations.buildReservationListItem, hresv, hs]
  · simp [UseTodayArrivals.parseArrival, hraw, hs]

/-- C9 witness: a row fetched with the unknown status "weird" parses to
"booked" in all three functions. -/
theorem unknown_status_parses_as_booked_witness :
    isValidReservationStatus "weird" = false ∧
    (UseReservations.parseReservation { status := some "weird" }).status =
      "booked" ∧
    (UseReservations.buildReservationListItem
      { id := "res-1", room_id := "room-1", guest_id := "guest-1",
        check_in_date := "2025-03-01", check_out_date := "2025-03-03",
        status := "weird", final_price := some 100 } [] []).status = "booked" ∧
    (UseTodayArrivals.parseArrival { status := some "weird" }).status =
      "booked" :=
  ⟨by decide,
   (unknown_status_parses_as_booked { status := some "weird" } "weird"
     { id := "res-1", room_id := "room-1", guest_id := "guest-1",
       check_in_date := "2025-03-01", check_out_date := "2025-03-03",
       status := "weird", final_price := some 100 } [] []
     (by decide) rfl rfl).1,
   (unknown_status_parses_as_booked { status := some "weird" } "weird"
     { id := "res-1", room_id := "room-1", guest_id := "guest-1",
       check_in_date := "2025-03-01", check_out_date := "2025-03-03",
       status := "weird", final_price := some 100 } [] []
     (by decide) rfl rfl).2.1,
   (unknown_status_parses_as_booked { status := some "weird" } "weird"
     { id := "res-1", room_id := "room-1", guest_id := "guest-1",
       check_in_date := "2025-03-01", check_out_date := "2025-03-03",
       status := "weird", final_price := some 100 } [] []
     (by decide) rfl rfl).2.2⟩
